import Mathlib

/-!
Verification of the wdom document module (src/wdom/document.py): the identity
registry, the document skeleton and bootstrap-script injection, serialization,
theme registration, temporary-directory cleanup, and the root-document slot.

Python floats that only ever flow into string formatting (reload_wait,
message_wait) are modelled by their formatted decimal representation, an
optional String.  Dynamic attribute access (hasattr/getattr on a theme module)
is modelled with Option fields.
-/

/-- A DOM node: doctype declaration, text node, raw html fragment, or an
element with a tag, an attribute list and child nodes.  The node classes
themselves live in wdom/node.py and wdom/tag.py, outside the analysed file;
their tree shape is modelled here with an ordinary inductive tree. -/
inductive HNode where
  | doctype (name : String) : HNode
  | text (s : String) : HNode
  | raw (s : String) : HNode
  | elem (tag : String) (attrs : List (String × String)) (children : List HNode) : HNode

/-- Render an attribute list as html source text. -/
def attrsHtml (attrs : List (String × String)) : String :=
  attrs.foldl (fun acc kv => acc ++ " " ++ kv.1 ++ "=\"" ++ kv.2 ++ "\"") ""

mutual
/-- Modelled from the spec: the textual representation of a node is delegated
to the excluded tag subsystem; a standard html rendering is used. -/
def HNode.html : HNode → String
  | HNode.doctype name => "<!DOCTYPE " ++ name ++ ">"
  | HNode.text s => s
  | HNode.raw s => s
  | HNode.elem tag attrs children =>
      "<" ++ tag ++ attrsHtml attrs ++ ">" ++ htmlList children ++ "</" ++ tag ++ ">"

/-- Concatenation of the textual representation of a list of nodes, in order,
with no separators. -/
def htmlList : List HNode → String
  | [] => ""
  | c :: cs => HNode.html c ++ htmlList cs
end

/-- Shorthand for a script element holding only text, as produced by
Script() with a textContent assignment. -/
def scriptNode (t : String) : HNode :=
  HNode.elem ("script") [] [HNode.text t]

/-- Shorthand for a script element with a src attribute, Script(src=src). -/
def scriptSrcNode (src : String) : HNode :=
  HNode.elem ("script") [("src", src)] []

/-- Shorthand for the stylesheet link element built by add_cssfile:
Link(rel=stylesheet, href=src). -/
def linkNode (src : String) : HNode :=
  HNode.elem ("link") [("rel", "stylesheet"), ("href", src)] []

/-- The process-wide configuration read from wdom.options.config.  Only the
fields the analysed file reads are modelled: autoreload and debug flags, the
logging default and the message_wait default (formatted representation). -/
structure GlobalConfig where
  autoreload : Bool
  debug : Bool
  logging : Option (Sum String Int)
  message_wait : Option String

/-- The state of a Document object from document.py.  The held references of
the instance (charset meta element, title element, body placeholder script,
autoreload placeholder script) are the corresponding fields; elements appended
to head or body after construction accumulate in headTail and bodyTail, after
the fixed children.  definedClasses records calls to
defaultView.customElements.define (the window subsystem, modelled from the
spec as the set of registered custom-element descriptors). -/
structure Document where
  doctypeName : String
  charset : String
  titleText : String
  autoreloadText : String
  scriptText : String
  headTail : List HNode
  bodyTail : List HNode
  definedClasses : List String
  autoreload : Option Bool
  reload_wait : Option String

/-- Embeds Document.__init__ (document.py lines 109-128): record the
autoreload options, build the skeleton.  The construction order of the source
is: doctype, html, head, charset meta (charset assigned), title element
(title assigned), body, body placeholder script, and finally the autoreload
placeholder script appended to head, so the head holds meta, title,
autoreload script in that order; both placeholder scripts start empty. -/
def Document.init (doctype : String) (title : String) (charset : String)
    (autoreload : Option Bool) (reload_wait : Option String) : Document :=
  { doctypeName := doctype
    charset := charset
    titleText := title
    autoreloadText := ""
    scriptText := ""
    headTail := []
    bodyTail := []
    definedClasses := []
    autoreload := autoreload
    reload_wait := reload_wait }

/-- The children of the head element: the fixed skeleton children built by
__init__ (charset meta, title, autoreload placeholder script) followed by
everything appended later. -/
def Document.headChildren (d : Document) : List HNode :=
  HNode.elem ("meta") [("charset", d.charset)] []
    :: HNode.elem ("title") [] [HNode.text d.titleText]
    :: scriptNode d.autoreloadText
    :: d.headTail

/-- The children of the body element: the placeholder script built by
__init__ followed by everything appended later. -/
def Document.bodyChildren (d : Document) : List HNode :=
  scriptNode d.scriptText :: d.bodyTail

/-- The direct children of the document node: the doctype node and the html
root element (head then body), as attached by __init__. -/
def Document.childNodes (d : Document) : List HNode :=
  [HNode.doctype d.doctypeName,
   HNode.elem ("html") []
     [HNode.elem ("head") [] d.headChildren,
      HNode.elem ("body") [] d.bodyChildren]]

/-- The autoreload decision of _set_autoreload (document.py lines 132-135):
an unset document flag falls back to config.autoreload or config.debug. -/
def Document.autoreloadFlag (cfg : GlobalConfig) (d : Document) : Bool :=
  match d.autoreload with
  | none => cfg.autoreload || cfg.debug
  | some b => b

/-- Embeds Document._set_autoreload (document.py lines 130-144): reset the
autoreload placeholder to empty; if autoreload is enabled (explicit flag, or
process-wide fallback) set it to the declaration lines, newline separated and
newline wrapped: the autoreload-true line, then the reload-wait line when
reload_wait is set. -/
def Document.setAutoreload (cfg : GlobalConfig) (d : Document) : Document :=
  let d1 := {d with autoreloadText := ""}
  if Document.autoreloadFlag cfg d1 then
    let ar_script : List String :=
      "var RIMO_AUTORELOAD = true"
        :: (match d1.reload_wait with
            | some w => ["var RIMO_RELOAD_WAIT = " ++ w]
            | none => [])
    let content := "\n" ++ String.intercalate ("\n") ar_script ++ "\n"
    {d1 with autoreloadText := content}
  else d1

/-- Embeds Document.build (document.py lines 249-252): refresh the autoreload
script, then join the html of the document's children.  The source mutates
the document, so the refreshed state is returned with the string. -/
def Document.build (cfg : GlobalConfig) (d : Document) : String × Document :=
  let d2 := Document.setAutoreload cfg d
  (htmlList d2.childNodes, d2)

/-- An element as seen by the identity registry: its owning document
(identity of the Document object, for the ownerDocument is self test) and its
own identity. -/
structure Elem where
  owner : Nat
  eid : Nat
deriving DecidableEq

/-- One identity-registry namespace: id string to element, most recent
binding first. -/
def Registry : Type := List (String × Elem)

/-- Modelled from the spec: element registration lives in wdom/element.py and
wdom/web_node.py (not under src); registering stores the binding for the key,
shadowing any earlier binding for the same key (last writer wins). -/
def register (reg : Registry) (id : String) (e : Elem) : Registry :=
  (id, e) :: reg

/-- Dictionary lookup on a registry namespace: the current (most recent)
binding of the key, or none. -/
def resolve (reg : Registry) (id : String) : Option Elem :=
  List.lookup id reg

/-- The two process-wide registry namespaces:
Element._elements_with_id and WdomElement._elements_with_rimo_id. -/
structure RegistryState where
  elements_with_id : Registry
  elements_with_rimo_id : Registry

/-- Embeds the module-level getElementById (document.py lines 28-31): read
the public-id namespace. -/
def getElementById (st : RegistryState) (id : String) : Option Elem :=
  resolve st.elements_with_id id

/-- Embeds the module-level getElementByRimoId (document.py lines 34-37):
read the internal correlation-id namespace. -/
def getElementByRimoId (st : RegistryState) (id : String) : Option Elem :=
  resolve st.elements_with_rimo_id id

/-- Embeds Document.getElementById (document.py lines 146-154): global lookup
then owner filtering, none unless the element's ownerDocument is this
document. -/
def doc_getElementById (self : Nat) (st : RegistryState) (id : String) :
    Option Elem :=
  match getElementById st id with
  | some e => if e.owner = self then some e else none
  | none => none

/-- Embeds Document.getElementByRimoId (document.py lines 156-164): global
lookup then owner filtering. -/
def doc_getElementByRimoId (self : Nat) (st : RegistryState) (id : String) :
    Option Elem :=
  match getElementByRimoId st id with
  | some e => if e.owner = self then some e else none
  | none => none

/-- C1: an id bound to an element owned by another document resolves to none
through the document's owner-filtered lookup, while the global lookup still
returns the element; likewise in the correlation-id namespace. -/
theorem getElementById_owner_filter (st : RegistryState) (d : Nat)
    (id rid : String) (e e2 : Elem)
    (h : getElementById st id = some e) (ho : e.owner ≠ d)
    (h2 : getElementByRimoId st rid = some e2) (ho2 : e2.owner ≠ d) :
    doc_getElementById d st id = none ∧ getElementById st id = some e
      ∧ doc_getElementByRimoId d st rid = none
      ∧ getElementByRimoId st rid = some e2 := by
  refine ⟨?_, h, ?_, h2⟩
  · unfold doc_getElementById
    rw [h]
    simp [ho]
  · unfold doc_getElementByRimoId
    rw [h2]
    simp [ho2]

/-- C1 witness at a concrete registry state. -/
theorem getElementById_owner_filter_witness :
    doc_getElementById 1 ⟨[("a", ⟨2, 5⟩)], [("r", ⟨2, 6⟩)]⟩ ("a") = none
      ∧ getElementById ⟨[("a", ⟨2, 5⟩)], [("r", ⟨2, 6⟩)]⟩ ("a") = some ⟨2, 5⟩
      ∧ doc_getElementByRimoId 1 ⟨[("a", ⟨2, 5⟩)], [("r", ⟨2, 6⟩)]⟩ ("r") = none
      ∧ getElementByRimoId ⟨[("a", ⟨2, 5⟩)], [("r", ⟨2, 6⟩)]⟩ ("r") = some ⟨2, 6⟩ :=
  getElementById_owner_filter ⟨[("a", ⟨2, 5⟩)], [("r", ⟨2, 6⟩)]⟩ 1 ("a") ("r")
    ⟨2, 5⟩ ⟨2, 6⟩ (by rfl) (by decide) (by rfl) (by decide)

/-- C2: registering the same key twice makes the second element the one
returned by subsequent resolve calls, and resolve reads exactly the current
binding of a freshly registered key. -/
theorem register_last_writer_wins (reg reg2 : Registry) (id : String)
    (e1 e2 e : Elem) (hne : e1 ≠ e2) :
    resolve (register (register reg id e1) id e2) id = some e2
      ∧ resolve (register reg2 id e) id = some e := by
  constructor
  · simp [register, resolve, List.lookup]
  · simp [register, resolve, List.lookup]

/-- C2 witness at a concrete registry. -/
theorem register_last_writer_wins_witness :
    resolve (register (register [] ("x") ⟨0, 1⟩) ("x") ⟨0, 2⟩) ("x") = some ⟨0, 2⟩
      ∧ resolve (register [] ("x") ⟨0, 3⟩) ("x") = some ⟨0, 3⟩ :=
  register_last_writer_wins [] [] ("x") ⟨0, 1⟩ ⟨0, 2⟩ ⟨0, 3⟩ (by decide)

/-- Embeds Document.add_jsfile (document.py lines 220-222): append a script
element loading src to the body. -/
def Document.add_jsfile (src : String) (d : Document) : Document :=
  {d with bodyTail := d.bodyTail ++ [scriptSrcNode src]}

/-- Embeds Document.add_jsfile_head (document.py lines 224-226): append a
script element loading src to the head. -/
def Document.add_jsfile_head (src : String) (d : Document) : Document :=
  {d with headTail := d.headTail ++ [scriptSrcNode src]}

/-- Embeds Document.add_cssfile (document.py lines 228-230): append a
stylesheet link element to the head. -/
def Document.add_cssfile (src : String) (d : Document) : Document :=
  {d with headTail := d.headTail ++ [linkNode src]}

/-- Embeds Document.add_header (document.py lines 232-234): append a raw html
fragment to the head. -/
def Document.add_header (header : String) (d : Document) : Document :=
  {d with headTail := d.headTail ++ [HNode.raw header]}

/-- A theme collaborator object, duck-typed in the source: each of the four
recognized resource sequences is present (hasattr) or absent.  getattr with a
default of the empty list is Option.getD. -/
structure Theme where
  css_files : Option (List String)
  js_files : Option (List String)
  headers : Option (List String)
  extended_classes : Option (List String)

/-- Embeds Document.register_theme (document.py lines 236-247): raise
ValueError when the theme has no css_files attribute; otherwise consume each
present sequence in order (stylesheets, scripts, headers, custom-element
descriptors). -/
def Document.register_theme (theme : Theme) (d : Document) :
    Except String Document :=
  if theme.css_files.isNone then
    Except.error ("theme module must include `css_files`.")
  else
    let d := (theme.css_files.getD []).foldl
      (fun acc c => Document.add_cssfile c acc) d
    let d := (theme.js_files.getD []).foldl
      (fun acc j => Document.add_jsfile j acc) d
    let d := (theme.headers.getD []).foldl
      (fun acc h => Document.add_header h acc) d
    let d := (theme.extended_classes.getD []).foldl
      (fun acc c => {acc with definedClasses := acc.definedClasses ++ [c]}) d
    Except.ok d

/-- Whether a registration outcome is the ValueError. -/
def isErr (r : Except String Document) : Bool :=
  match r with
  | Except.error _ => true
  | Except.ok _ => false

/-- C3 counterexample: a theme exposing one of the four recognized sequences
(js_files only) still raises the invalid-collaborator error, so the error is
not raised exactly when all four are absent. -/
theorem register_theme_counterexample :
    isErr (Document.register_theme ⟨none, some ["a.js"], none, none⟩
        (Document.init ("html") ("W-DOM") ("utf-8") none none)) = true
      ∧ (⟨none, some ["a.js"], none, none⟩ : Theme).js_files = some ["a.js"] := by
  exact ⟨rfl, rfl⟩

/-- C3 amended: register_theme raises the invalid-collaborator error exactly
when the theme lacks the stylesheet sequence (css_files), regardless of the
other three sequences; a theme exposing only a stylesheet sequence of two
entries appends exactly two stylesheet-link elements to the head, in the
given order, and changes nothing else. -/
theorem register_theme_css_guard (d : Document) (t : Theme) (a b : String) :
    (isErr (Document.register_theme t d) = true ↔ t.css_files = none)
      ∧ Document.register_theme ⟨some [a, b], none, none, none⟩ d =
          Except.ok {d with headTail := d.headTail ++ [linkNode a, linkNode b]} := by
  constructor
  · cases hc : t.css_files <;>
      simp [Document.register_theme, hc, isErr]
  · simp [Document.register_theme, Document.add_cssfile]

/-- C4: after a bootstrap refresh, a document with autoreload enabled and
reload_wait 2.5 has both the autoreload-true declaration and the reload-wait
declaration equal to 2.5 in the placeholder content; a document with
autoreload explicitly disabled (and no process-wide default enabling it) has
the empty string there. -/
theorem setAutoreload_content (cfg : GlobalConfig) (d : Document) :
    (d.autoreload = some true → d.reload_wait = some ("2.5") →
      (∃ u v, (Document.setAutoreload cfg d).autoreloadText
          = u ++ "var RIMO_AUTORELOAD = true" ++ v)
      ∧ (∃ u v, (Document.setAutoreload cfg d).autoreloadText
          = u ++ "var RIMO_RELOAD_WAIT = 2.5" ++ v))
    ∧ (d.autoreload = some false → cfg.autoreload = false → cfg.debug = false →
        (Document.setAutoreload cfg d).autoreloadText = "") := by
  constructor
  · intro h1 h2
    have hc : (Document.setAutoreload cfg d).autoreloadText =
        "\nvar RIMO_AUTORELOAD = true\nvar RIMO_RELOAD_WAIT = 2.5\n" := by
      simp [Document.setAutoreload, Document.autoreloadFlag, h1, h2]
      rfl
    refine ⟨⟨"\n", "\nvar RIMO_RELOAD_WAIT = 2.5\n", ?_⟩,
      ⟨"\nvar RIMO_AUTORELOAD = true\n", "\n", ?_⟩⟩ <;> rw [hc] <;> rfl
  · intro h1 _ _
    simp [Document.setAutoreload, Document.autoreloadFlag, h1]

/-- C4 witness at two concretely configured documents. -/
theorem setAutoreload_content_witness :
    ((∃ u v, (Document.setAutoreload ⟨false, false, none, none⟩
          (Document.init ("html") ("W-DOM") ("utf-8") (some true)
            (some ("2.5")))).autoreloadText
        = u ++ "var RIMO_AUTORELOAD = true" ++ v)
      ∧ (∃ u v, (Document.setAutoreload ⟨false, false, none, none⟩
          (Document.init ("html") ("W-DOM") ("utf-8") (some true)
            (some ("2.5")))).autoreloadText
        = u ++ "var RIMO_RELOAD_WAIT = 2.5" ++ v))
    ∧ (Document.setAutoreload ⟨false, false, none, none⟩
        (Document.init ("html") ("W-DOM") ("utf-8") (some false)
          none)).autoreloadText = "" :=
  ⟨(setAutoreload_content ⟨false, false, none, none⟩
      (Document.init ("html") ("W-DOM") ("utf-8") (some true)
        (some ("2.5")))).1 rfl rfl,
   (setAutoreload_content ⟨false, false, none, none⟩
      (Document.init ("html") ("W-DOM") ("utf-8") (some false)
        none)).2 rfl rfl rfl⟩

/-- The keyword arguments of get_new_document that the analysed lines read:
runtime-library inclusion, the autoreload options passed through to the
factory, and the logging/transport options. -/
structure GNDParams where
  include_rimo : Bool
  autoreload : Option Bool
  reload_wait : Option String
  log_level : Option (Sum String Int)
  log_pfx : Option String
  log_console : Bool
  ws_url : Option String
  message_wait : Option String

/-- Python string formatting of the message-wait value: the formatted float
when present, the text None otherwise (format never fails). -/
def formatOpt (mw : Option String) : String :=
  match mw with
  | some s => s
  | none => "None"

/-- Embeds the log-script assembly of get_new_document (document.py lines
300-309): the message-wait line unconditionally, then the log-level line when
the level is a string or an int, then the log-prefix line when the prefix is
truthy, then the log-console line when the flag is set. -/
def logLines (message_wait : Option String) (log_level : Option (Sum String Int))
    (log_pfx : Option String) (log_console : Bool) : List String :=
  let ls := ["var RIMO_MESSAGE_WAIT = " ++ formatOpt message_wait]
  let ls := ls ++ (match log_level with
    | some (Sum.inl s) => ["var RIMO_LOG_LEVEL = \x27" ++ s ++ "\x27"]
    | some (Sum.inr n) => ["var RIMO_LOG_LEVEL = " ++ toString n]
    | none => [])
  let ls := ls ++ (match log_pfx with
    | some s => if s = "" then []
                else ["var RIMO_LOG_PREFIX = \x27" ++ s ++ "\x27"]
    | none => [])
  let ls := ls ++ (if log_console then ["var RIMO_LOG_CONSOLE = true"] else [])
  ls

/-- The fallback of get_new_document line 295-296: an unset log level falls
back to config.logging. -/
def fb_log_level (cfg : GlobalConfig) (p : GNDParams) : Option (Sum String Int) :=
  match p.log_level with
  | none => cfg.logging
  | some l => some l

/-- The fallback of get_new_document line 297-298: an unset message wait
falls back to config.message_wait. -/
def fb_message_wait (cfg : GlobalConfig) (p : GNDParams) : Option String :=
  match p.message_wait with
  | none => cfg.message_wait
  | some m => some m

/-- Embeds get_new_document (document.py lines 255-321): construct the
document with the autoreload options, then append to the head, in order: the
logging/message-wait script when its line list is nonempty, the transport-URL
script when ws_url is truthy, and the runtime-library script when
include_rimo is set. -/
def get_new_document (cfg : GlobalConfig) (p : GNDParams) : Document :=
  let document := Document.init ("html") ("W-DOM") ("utf-8")
    p.autoreload p.reload_wait
  let log_script := logLines (fb_message_wait cfg p) (fb_log_level cfg p)
    p.log_pfx p.log_console
  let document := if log_script.isEmpty then document
    else {document with headTail := document.headTail ++
      [scriptNode ("\n" ++ String.intercalate ("\n") log_script ++ "\n")]}
  let document := match p.ws_url with
    | some u =>
        if u = "" then document
        else {document with headTail := document.headTail ++
          [scriptNode ("\nvar RIMO_WS_URL = \x27" ++ u ++ "\x27\n")]}
    | none => document
  let document := if p.include_rimo then
      Document.add_jsfile_head ("_static/js/rimo/rimo.js") document
    else document
  document

/-- The spec's description of the logging block: one optional declaration per
configuration value, in the order message-wait, log level, log prefix, log
console, with the absent ones dropped. -/
def specLogDecls (mw : Option String) (ll : Option (Sum String Int))
    (lp : Option String) (lc : Bool) : List String :=
  List.reduceOption
    [some ("var RIMO_MESSAGE_WAIT = " ++ formatOpt mw),
     (match ll with
      | some (Sum.inl s) => some ("var RIMO_LOG_LEVEL = \x27" ++ s ++ "\x27")
      | some (Sum.inr n) => some ("var RIMO_LOG_LEVEL = " ++ toString n)
      | none => none),
     (match lp with
      | some s => if s = "" then none
                  else some ("var RIMO_LOG_PREFIX = \x27" ++ s ++ "\x27")
      | none => none),
     (if lc then some ("var RIMO_LOG_CONSOLE = true") else none)]

/-- The code's log-line assembly agrees with the spec's ordered optional
declarations. -/
theorem logLines_eq_specLogDecls (mw : Option String)
    (ll : Option (Sum String Int)) (lp : Option String) (lc : Bool) :
    logLines mw ll lp lc = specLogDecls mw ll lp lc := by
  unfold logLines specLogDecls
  rcases ll with _ | l
  · rcases lp with _ | t
    · cases lc <;> simp [List.reduceOption]
    · by_cases ht : t = "" <;> cases lc <;> simp [ht, List.reduceOption]
  · rcases l with s | n <;> rcases lp with _ | t
    · cases lc <;> simp [List.reduceOption]
    · by_cases ht : t = "" <;> cases lc <;> simp [ht, List.reduceOption]
    · cases lc <;> simp [List.reduceOption]
    · by_cases ht : t = "" <;> cases lc <;> simp [ht, List.reduceOption]

/-- The log-line list always starts with the message-wait line, so it is
never empty. -/
theorem logLines_isEmpty (mw : Option String) (ll : Option (Sum String Int))
    (lp : Option String) (lc : Bool) :
    (logLines mw ll lp lc).isEmpty = false := rfl

/-- htmlList is the fold of the children's textual representations under
string append with no separators. -/
theorem htmlList_eq_foldr (l : List HNode) :
    htmlList l = (l.map HNode.html).foldr (fun a b => a ++ b) ("") := by
  induction l with
  | nil => rfl
  | cons c cs ih => simp [htmlList, ih]

/-- A bootstrap refresh leaves the autoreload configuration itself (the
document flag and the reload wait) untouched, so refreshing twice equals
refreshing once. -/
theorem setAutoreload_idem (cfg : GlobalConfig) (d : Document) :
    Document.setAutoreload cfg (Document.setAutoreload cfg d) =
      Document.setAutoreload cfg d := by
  cases d
  simp only [Document.setAutoreload, Document.autoreloadFlag]
  split <;> simp_all

/-- C7: build first re-derives the bootstrap script content from the current
configuration, and returns the concatenation of the textual representation of
each direct child of the refreshed document, in child order, with no
separators. -/
theorem build_refresh_concat (cfg : GlobalConfig) (d : Document) :
    (Document.build cfg d).2 = Document.setAutoreload cfg d
      ∧ (Document.build cfg d).1 =
          ((Document.setAutoreload cfg d).childNodes.map HNode.html).foldr
            (fun a b => a ++ b) ("") := by
  exact ⟨rfl, htmlList_eq_foldr (Document.setAutoreload cfg d).childNodes⟩

/-- C8: calling build twice on the same document with no intervening mutation
yields identical strings; the second call serializes the state left by the
first and produces the same output. -/
theorem build_deterministic (cfg : GlobalConfig) (d : Document) :
    (Document.build cfg (Document.build cfg d).2).1 = (Document.build cfg d).1 := by
  simp only [Document.build]
  rw [setAutoreload_idem]

/-- C5: a freshly constructed Document has exactly the skeleton: doctype,
then one html root holding one head then one body; the head holds, in order,
the charset meta, the title element, and the empty autoreload placeholder
script; the body holds one empty placeholder script. -/
theorem document_init_skeleton (doctype title charset : String)
    (ar : Option Bool) (rw : Option String) :
    (Document.init doctype title charset ar rw).childNodes =
      [HNode.doctype doctype,
       HNode.elem ("html") []
         [HNode.elem ("head") []
           [HNode.elem ("meta") [("charset", charset)] [],
            HNode.elem ("title") [] [HNode.text title],
            HNode.elem ("script") [] [HNode.text ""]],
          HNode.elem ("body") []
            [HNode.elem ("script") [] [HNode.text ""]]]] := by
  rfl

/-- C6: whenever any of message-wait, log level, log prefix or log-console
has a value after the process-wide fallbacks, the logging/message-wait script
block is appended to the head; its lines are exactly the present values, one
declaration each, in the order message-wait, log level, log prefix,
log-console, with the message-wait declaration always included first. -/
theorem get_new_document_log_block (cfg : GlobalConfig) (p : GNDParams)
    (hv : (fb_message_wait cfg p).isSome = true
        ∨ (fb_log_level cfg p).isSome = true
        ∨ p.log_pfx.isSome = true
        ∨ p.log_console = true) :
    logLines (fb_message_wait cfg p) (fb_log_level cfg p) p.log_pfx
        p.log_console
      = specLogDecls (fb_message_wait cfg p) (fb_log_level cfg p) p.log_pfx
          p.log_console
    ∧ (logLines (fb_message_wait cfg p) (fb_log_level cfg p) p.log_pfx
          p.log_console).head?
        = some ("var RIMO_MESSAGE_WAIT = " ++ formatOpt (fb_message_wait cfg p))
    ∧ scriptNode ("\n" ++ String.intercalate ("\n")
          (logLines (fb_message_wait cfg p) (fb_log_level cfg p) p.log_pfx
            p.log_console) ++ "\n")
        ∈ (get_new_document cfg p).headTail := by
  refine ⟨logLines_eq_specLogDecls _ _ _ _, rfl, ?_⟩
  unfold get_new_document
  simp only [logLines_isEmpty, Bool.false_eq_true, if_false, Document.init,
    List.nil_append]
  rcases p.ws_url with _ | u
  · cases p.include_rimo <;> simp [Document.add_jsfile_head]
  · by_cases hu : u = "" <;> cases p.include_rimo <;>
      simp [hu, Document.add_jsfile_head]

/-- C6 witness at a concrete configuration with a message-wait default and a
string log level. -/
theorem get_new_document_log_block_witness :
    logLines
        (fb_message_wait ⟨false, false, some (Sum.inl ("INFO")), some ("0.005")⟩
          ⟨true, none, none, none, none, false, none, none⟩)
        (fb_log_level ⟨false, false, some (Sum.inl ("INFO")), some ("0.005")⟩
          ⟨true, none, none, none, none, false, none, none⟩)
        none false
      = specLogDecls
          (fb_message_wait ⟨false, false, some (Sum.inl ("INFO")), some ("0.005")⟩
            ⟨true, none, none, none, none, false, none, none⟩)
          (fb_log_level ⟨false, false, some (Sum.inl ("INFO")), some ("0.005")⟩
            ⟨true, none, none, none, none, false, none, none⟩)
          none false
    ∧ (logLines
          (fb_message_wait ⟨false, false, some (Sum.inl ("INFO")), some ("0.005")⟩
            ⟨true, none, none, none, none, false, none, none⟩)
          (fb_log_level ⟨false, false, some (Sum.inl ("INFO")), some ("0.005")⟩
            ⟨true, none, none, none, none, false, none, none⟩)
          none false).head?
        = some ("var RIMO_MESSAGE_WAIT = " ++ formatOpt
            (fb_message_wait ⟨false, false, some (Sum.inl ("INFO")), some ("0.005")⟩
              ⟨true, none, none, none, none, false, none, none⟩))
    ∧ scriptNode ("\n" ++ String.intercalate ("\n")
          (logLines
            (fb_message_wait ⟨false, false, some (Sum.inl ("INFO")), some ("0.005")⟩
              ⟨true, none, none, none, none, false, none, none⟩)
            (fb_log_level ⟨false, false, some (Sum.inl ("INFO")), some ("0.005")⟩
              ⟨true, none, none, none, none, false, none, none⟩)
            none false) ++ "\n")
        ∈ (get_new_document ⟨false, false, some (Sum.inl ("INFO")), some ("0.005")⟩
            ⟨true, none, none, none, none, false, none, none⟩).headTail :=
  get_new_document_log_block ⟨false, false, some (Sum.inl ("INFO")), some ("0.005")⟩
    ⟨true, none, none, none, none, false, none, none⟩ (Or.inl rfl)

/-- The filesystem state of a document's temporary directory: whether the
path currently is a directory, and whether removal is permitted. -/
structure TempDirFS where
  isdir : Bool
  locked : Bool
deriving DecidableEq

/-- Modelled from the spec: shutil.rmtree (standard library, outside src)
recursively deletes the directory and may fail, e.g. with permission
denied (the locked flag). -/
def rmtree (fs : TempDirFS) : Except Unit TempDirFS :=
  if fs.locked then Except.error () else Except.ok {fs with isdir := false}

/-- Embeds _cleanup (document.py lines 40-42): remove the tree only when the
path still is a directory; an already-absent directory is success. -/
def cleanup (fs : TempDirFS) : Except Unit TempDirFS :=
  if fs.isdir then rmtree fs else Except.ok fs

/-- Modelled from the spec: the weakref.finalize binding of __init__
(document.py lines 110-111) runs the reclamation action at most once (the
alive flag) and swallows any error it raises; runs counts invocations of the
cleanup action. -/
structure Finalizer where
  alive : Bool
  fs : TempDirFS
  runs : Nat
deriving DecidableEq

/-- Modelled from the spec: triggering the finalizer runs the cleanup action
once, marks the finalizer dead, and keeps the old filesystem state when the
cleanup fails (the failure is swallowed); a dead finalizer does nothing. -/
def Finalizer.trigger (f : Finalizer) : Finalizer :=
  if f.alive then
    match cleanup f.fs with
    | Except.ok fs2 => {alive := false, fs := fs2, runs := f.runs + 1}
    | Except.error _ => {alive := false, fs := f.fs, runs := f.runs + 1}
  else f

/-- C9: the reclamation action runs at most once even when triggered
redundantly (a second trigger changes nothing and one trigger adds at most
one run); an already-absent directory is success; and a permission-denied
removal is swallowed: the trigger still completes, marking the finalizer
dead and leaving the directory in place. -/
theorem finalizer_once_and_swallow (f : Finalizer) (d b : Bool) (n : Nat) :
    Finalizer.trigger (Finalizer.trigger f) = Finalizer.trigger f
      ∧ (Finalizer.trigger f).runs ≤ f.runs + 1
      ∧ cleanup ⟨false, b⟩ = Except.ok ⟨false, b⟩
      ∧ Finalizer.trigger ⟨true, ⟨d, true⟩, n⟩ = ⟨false, ⟨d, true⟩, n + 1⟩ := by
  refine ⟨?_, ?_, rfl, ?_⟩
  · by_cases ha : f.alive
    · rcases hc : cleanup f.fs with e | fs2 <;>
        simp [Finalizer.trigger, ha, hc]
    · simp [Finalizer.trigger, ha]
  · by_cases ha : f.alive
    · rcases hc : cleanup f.fs with e | fs2 <;>
        simp [Finalizer.trigger, ha, hc]
    · simp [Finalizer.trigger, ha]
  · cases d <;> rfl

/-- The process-wide module state of document.py: the rootDocument slot. -/
structure Globals where
  rootDocument : Document

/-- Embeds get_document (document.py lines 325-330): every positional and
keyword argument is ignored; the current root document is returned. -/
def get_document (args : List String) (kwargs : List (String × String))
    (g : Globals) : Document :=
  g.rootDocument

/-- Embeds set_document (document.py lines 333-339): replace the root
document slot with the given document. -/
def set_document (new_document : Document) (g : Globals) : Globals :=
  {g with rootDocument := new_document}

/-- C10: get_document returns the current root document regardless of its
arguments, and after set_document every subsequent get_document returns
exactly the document that was set. -/
theorem get_set_document_slot (a1 a2 : List String)
    (k1 k2 : List (String × String)) (g : Globals) (d : Document) :
    get_document a1 k1 g = get_document a2 k2 g
      ∧ get_document a1 k1 g = g.rootDocument
      ∧ get_document a1 k1 (set_document d g) = d := by
  exact ⟨rfl, rfl, rfl⟩
